import Mathlib

/-!
A shallow embedding of the `Modal` UI component (`src/components/Modal/Modal.ts`)
and proofs about its lifecycle, focus trap, and event wiring.

DOM elements are identified by natural-number ids.  The DOM environment is
modelled explicitly: the document's active element, the children of
`document.body`, the body `overflow` style, which document-level `keydown`
listeners are registered, and which portal nodes carry the
`modal-portal--open` class.  The two deferred effects of the source
(`setTimeout(..., 200)` and `requestAnimationFrame`) are modelled as explicit
FIFO task queues; firing the head of a queue runs the corresponding closure's
body, translated from the source, against the then-current state.
-/

namespace ModalSpec

/-- A DOM element identifier. -/
abbrev ElemId := Nat

/-- One element matched by the focusable-selector query
(`button, [href], input, select, textarea, [tabindex]:not([tabindex="-1"])`):
its id and whether it has the `disabled` attribute. -/
structure Matched where
  id : ElemId
  disabled : Bool
deriving DecidableEq, Repr

/-- An element (or element subtree) handed to the modal as content.  The field
`matched` lists, in document order, the elements of its subtree (itself
included) matched by the focusable selector. -/
structure ContentElem where
  matched : List Matched
deriving DecidableEq, Repr

/-- The `children` union type: `HTMLElement | HTMLElement[] | string`. -/
inductive Children where
  | str (s : String)
  | elem (e : ContentElem)
  | elems (l : List ContentElem)
deriving DecidableEq, Repr

/-- The host DOM capability the controller consumes: parsing raw markup
assigned via `innerHTML` yields the matched focusable-selector elements of the
resulting subtree. -/
structure DomEnv where
  htmlFocusables : String → List Matched

/-- The `ModalProps` record.  Optional TypeScript fields are `Option`s; `undefined` is
`none`.  The `onClose` callback is not stored: its invocations are counted in
the state (`St.onCloseCalls`). -/
structure ModalProps where
  isOpen : Bool
  title : Option String := none
  children : Option Children := none
  size : Option String := none
  closeOnBackdropClick : Option Bool := none
  closeOnEscape : Option Bool := none
  className : Option String := none
  showCloseButton : Option Bool := none
deriving DecidableEq, Repr

/-- The `Partial<ModalProps>` type: every field may be absent. -/
structure PartialProps where
  isOpen : Option Bool := none
  title : Option (Option String) := none
  children : Option (Option Children) := none
  size : Option (Option String) := none
  closeOnBackdropClick : Option (Option Bool) := none
  closeOnEscape : Option (Option Bool) := none
  className : Option (Option String) := none
  showCloseButton : Option (Option Bool) := none
deriving DecidableEq, Repr

/-- Object spread `{ ...this.props, ...newProps }`: a field present in
`newProps` overrides, an absent one keeps the old value. -/
def mergeProps (old : ModalProps) (new : PartialProps) : ModalProps where
  isOpen := new.isOpen.getD old.isOpen
  title := new.title.getD old.title
  children := new.children.getD old.children
  size := new.size.getD old.size
  closeOnBackdropClick := new.closeOnBackdropClick.getD old.closeOnBackdropClick
  closeOnEscape := new.closeOnEscape.getD old.closeOnEscape
  className := new.className.getD old.className
  showCloseButton := new.showCloseButton.getD old.showCloseButton

/-- The TypeScript test `x !== false` on an optional boolean: true for
`undefined` and `true`, false only for an explicit `false`. -/
def notFalse : Option Bool → Bool
  | some false => false
  | _ => true

/-- Truthiness of an optional string (`if (this.props.title)`). -/
def strTruthy : Option String → Bool
  | none => false
  | some s => s != ""

/-- The mutable fields of the `Modal` instance.  `backdropListens` records
whether the `click` listener was attached to the backdrop at creation time;
`bodyMatched` models the current focusable-selector matches inside the body
node's subtree. -/
structure Modal where
  portal : Option ElemId := none
  backdrop : Option ElemId := none
  modalElem : Option ElemId := none
  header : Option ElemId := none
  body : Option ElemId := none
  closeButton : Option ElemId := none
  props : ModalProps
  previousFocusedElement : Option ElemId := none
  focusableElements : List ElemId := []
  backdropListens : Bool := false
  bodyMatched : List Matched := []
deriving DecidableEq, Repr

/-- The document-level DOM state the controller touches. -/
structure Dom where
  activeElement : Option ElemId := none
  bodyChildren : List ElemId := []
  bodyOverflow : String := ""
  escapeListener : Bool := false
  trapListener : Bool := false
  openPortals : List ElemId := []
deriving DecidableEq, Repr

/-- The closures passed to `setTimeout` in the source: the `hide()` cleanup
and the deferred `show()` of the re-render path of `updateProps`. -/
inductive TimerTask where
  | hideCleanup
  | delayedShow
deriving DecidableEq, Repr

/-- The closure passed to `requestAnimationFrame` in `show()`. -/
inductive RafTask where
  | addOpenClass
deriving DecidableEq, Repr

/-- The whole machine state: the instance, the DOM, the deferred-task queues
(each timer entry records its delay in ms), the count of `onClose`
invocations, the ids of portal nodes this controller has created (a ghost
log), and a fresh-id counter for node creation. -/
structure St where
  m : Modal
  dom : Dom
  pending : List (Nat × TimerTask) := []
  rafQueue : List RafTask := []
  onCloseCalls : Nat := 0
  createdPortals : List ElemId := []
  nextId : Nat := 0
deriving DecidableEq, Repr

/-- Models `document.body.appendChild(p)`: a node already in the document is moved,
never duplicated — it is removed from its position and appended at the end. -/
def appendChildBody (d : Dom) (p : ElemId) : Dom :=
  { d with bodyChildren := d.bodyChildren.erase p ++ [p] }

/-- Models `document.body.removeChild(p)`. -/
def removeChildBody (d : Dom) (p : ElemId) : Dom :=
  { d with bodyChildren := d.bodyChildren.erase p }

/-- Models `portal.classList.add('modal-portal--open')`. -/
def classAddOpen (d : Dom) (p : ElemId) : Dom :=
  { d with openPortals := if p ∈ d.openPortals then d.openPortals else d.openPortals ++ [p] }

/-- Models `portal.classList.remove('modal-portal--open')`. -/
def classRemoveOpen (d : Dom) (p : ElemId) : Dom :=
  { d with openPortals := d.openPortals.erase p }

/-- Source `getModalClassName()`. -/
def getModalClassName (props : ModalProps) : String :=
  let baseClass := "modal"
  let size := "modal--" ++ props.size.getD "medium"
  let custom := props.className.getD ""
  String.intercalate " " ([baseClass, size, custom].filter (fun s => s != ""))

/-- The focusable-selector matches contributed by a `children` value when it
is attached to the body (`createBody` / `updateContent`). -/
def childrenMatched (env : DomEnv) : Children → List Matched
  | .str s => env.htmlFocusables s
  | .elem e => e.matched
  | .elems l => (l.map (·.matched)).flatten

/-- Source `createElement()` (with `createHeader` and `createBody` inlined): builds
the portal/backdrop/modal/header/body subtree with fresh node ids, attaches
the backdrop `click` listener when `closeOnBackdropClick !== false`, and the
close button (with its own `click` listener) when `showCloseButton !== false`.
Nothing is attached to the document here. -/
def createElement (env : DomEnv) (st : St) : St :=
  let pId := st.nextId
  let headerNeeded := strTruthy st.m.props.title || notFalse st.m.props.showCloseButton
  { st with
    m := { st.m with
      portal := some pId
      backdrop := some (pId + 1)
      modalElem := some (pId + 2)
      header := if headerNeeded then some (pId + 3) else none
      closeButton := if notFalse st.m.props.showCloseButton then some (pId + 5) else none
      body := some (pId + 6)
      backdropListens := notFalse st.m.props.closeOnBackdropClick
      bodyMatched := match st.m.props.children with
        | none => []
        | some ch => childrenMatched env ch }
    createdPortals := st.createdPortals ++ [pId]
    nextId := pId + 7 }

/-- Source `getFocusableElements()`: empty when the modal node reference is gone;
otherwise the matched elements of the modal subtree in document order (the
close button in the header precedes the body content), minus `disabled`
ones. -/
def getFocusableElements (m : Modal) : List ElemId :=
  if m.modalElem = none then []
  else
    (((match m.closeButton with
        | some c => [⟨c, false⟩]
        | none => ([] : List Matched)) ++ m.bodyMatched).filter
      (fun e => !e.disabled)).map (·.id)

/-- The focus move of `show()`: the first focusable element if any, else the
modal container if its reference exists, else focus is left where it was. -/
def focusTarget (fs : List ElemId) (modalElem : Option ElemId) (a : Option ElemId) : Option ElemId :=
  match fs.head? with
  | some f => some f
  | none => match modalElem with
    | some mid => some mid
    | none => a

/-- Source `show()`: lazily create the subtree, capture the focused element, append
the portal to the body, lock scroll, register the document listeners, compute
the focusable list and move focus, and queue the open-class addition for the
next animation frame. -/
def «show» (env : DomEnv) (st : St) : St :=
  let st := if st.m.portal = none then createElement env st else st
  let m := { st.m with previousFocusedElement := st.dom.activeElement }
  let p := m.portal.getD 0
  let fs := getFocusableElements m
  { st with
    m := { m with focusableElements := fs }
    dom := { appendChildBody st.dom p with
      bodyOverflow := "hidden"
      escapeListener := if notFalse m.props.closeOnEscape then true else st.dom.escapeListener
      trapListener := true
      activeElement := focusTarget fs m.modalElem st.dom.activeElement }
    rafQueue := st.rafQueue ++ [RafTask.addOpenClass] }

/-- Source `hide()`: no-op without a portal; otherwise remove the open class now and
schedule the cleanup closure with a 200 ms delay. -/
def hide (st : St) : St :=
  match st.m.portal with
  | none => st
  | some p =>
    { st with
      dom := classRemoveOpen st.dom p
      pending := st.pending ++ [(200, TimerTask.hideCleanup)] }

/-- The body of the `setTimeout` closure in `hide()`: unregister both document
listeners, detach the portal if it is still referenced and attached, restore
body scroll, and restore focus to the captured element. -/
def hideCleanupRun (st : St) : St :=
  { st with dom := { st.dom with
      escapeListener := false
      trapListener := false
      bodyChildren := match st.m.portal with
        | some p =>
          if p ∈ st.dom.bodyChildren then st.dom.bodyChildren.erase p
          else st.dom.bodyChildren
        | none => st.dom.bodyChildren
      bodyOverflow := ""
      activeElement := match st.m.previousFocusedElement with
        | some e => some e
        | none => st.dom.activeElement } }

/-- Run one timer closure against the current state. -/
def runTask (env : DomEnv) (t : TimerTask) (st : St) : St :=
  match t with
  | .hideCleanup => hideCleanupRun st
  | .delayedShow => «show» env st

/-- The event loop fires the oldest pending timer (all delays are the fixed
200 ms, so expiry order is FIFO). -/
def fireTimer (env : DomEnv) (st : St) : St :=
  match st.pending with
  | [] => st
  | (_, t) :: rest => runTask env t { st with pending := rest }

/-- The body of the `requestAnimationFrame` closure in `show()`:
`this.portal?.classList.add('modal-portal--open')` against the current
instance state. -/
def runRaf (st : St) : St :=
  match st.m.portal with
  | some p => { st with dom := classAddOpen st.dom p }
  | none => st

/-- The next animation-frame tick: fire the oldest queued frame callback. -/
def fireRaf (st : St) : St :=
  match st.rafQueue with
  | [] => st
  | _ :: rest => runRaf { st with rafQueue := rest }

/-- Source `updateProps(newProps)`: merge, then diff the previous `isOpen` against
the merged one. -/
def updateProps (env : DomEnv) (newProps : PartialProps) (st : St) : St :=
  let wasOpen := st.m.props.isOpen
  let merged := mergeProps st.m.props newProps
  let st := { st with m := { st.m with props := merged } }
  if wasOpen && !merged.isOpen then hide st
  else if !wasOpen && merged.isOpen then «show» env st
  else if merged.isOpen then
    let st := hide st
    { st with pending := st.pending ++ [(200, TimerTask.delayedShow)] }
  else st

/-- Source `updateContent(children)`: no-op without a body node; otherwise replace
the body content wholesale and recompute the focusable-element list. -/
def updateContent (env : DomEnv) (children : Children) (st : St) : St :=
  if st.m.body = none then st
  else
    let m := { st.m with bodyMatched := childrenMatched env children }
    { st with m := { m with focusableElements := getFocusableElements m } }

/-- Source `destroy()`: a `hide()` then release of every element reference. -/
def destroy (st : St) : St :=
  let st := hide st
  { st with
    m := { st.m with
      portal := none, backdrop := none, modalElem := none,
      header := none, body := none, closeButton := none } }

/-- A keyboard event as the handlers see it. -/
structure KeyEvent where
  key : String
  shiftKey : Bool := false
deriving DecidableEq, Repr

/-- Source `handleEscapeKey(event)`: invoke `onClose` on Escape unless
`closeOnEscape` is explicitly `false`. -/
def handleEscapeKey (ev : KeyEvent) (st : St) : St :=
  if ev.key == "Escape" && notFalse st.m.props.closeOnEscape then
    { st with onCloseCalls := st.onCloseCalls + 1 }
  else st

/-- Source `trapFocus(event)`: returns the new state and whether `preventDefault`
was called (i.e. whether the Tab press was intercepted). -/
def trapFocus (ev : KeyEvent) (st : St) : St × Bool :=
  if ev.key != "Tab" then (st, false)
  else if st.m.focusableElements.length = 0 then (st, false)
  else
    let firstElement := st.m.focusableElements.headD 0
    let lastElement := st.m.focusableElements.getLastD 0
    if ev.shiftKey then
      if st.dom.activeElement = some firstElement then
        ({ st with dom := { st.dom with activeElement := some lastElement } }, true)
      else (st, false)
    else
      if st.dom.activeElement = some lastElement then
        ({ st with dom := { st.dom with activeElement := some firstElement } }, true)
      else (st, false)

/-- A document-level `keydown` dispatch: the registered listeners run in
registration order (`handleEscapeKey` before `trapFocus`).  The boolean is
whether `trapFocus` intercepted the event. -/
def dispatchKeydown (ev : KeyEvent) (st : St) : St × Bool :=
  let st := if st.dom.escapeListener then handleEscapeKey ev st else st
  if st.dom.trapListener then trapFocus ev st else (st, false)

/-- Source `handleBackdropClick(event)`: invoke `onClose` only when the event target
is exactly the backdrop element. -/
def handleBackdropClick (target : ElemId) (st : St) : St :=
  if st.m.backdrop = some target then
    { st with onCloseCalls := st.onCloseCalls + 1 }
  else st

/-- A click on a node of the portal subtree: the close button's own listener
fires when it is the target, then the click bubbles to the backdrop, whose
listener (when attached) runs `handleBackdropClick` with the original
target. -/
def clickPortal (target : ElemId) (st : St) : St :=
  let st := if st.m.closeButton = some target then
      { st with onCloseCalls := st.onCloseCalls + 1 }
    else st
  if st.m.backdropListens then handleBackdropClick target st else st

/-- The constructor: store the props (handler binding has no observable
effect in the model) and `show()` immediately when `isOpen` is true. -/
def construct (env : DomEnv) (props : ModalProps) (dom0 : Dom) : St :=
  let st : St := { m := { props := props }, dom := dom0 }
  if props.isOpen then «show» env st else st

/-- The operations an execution interleaves: the public methods, the deferred
callbacks firing, and dispatched user events. -/
inductive Op where
  | show
  | hide
  | updateProps (p : PartialProps)
  | updateContent (c : Children)
  | destroy
  | fireTimer
  | fireRaf
  | keydown (ev : KeyEvent)
  | click (t : ElemId)
deriving DecidableEq, Repr

/-- Apply one operation. -/
def applyOp (env : DomEnv) (o : Op) (st : St) : St :=
  match o with
  | .show => «show» env st
  | .hide => hide st
  | .updateProps p => updateProps env p st
  | .updateContent c => updateContent env c st
  | .destroy => destroy st
  | .fireTimer => fireTimer env st
  | .fireRaf => fireRaf st
  | .keydown ev => (dispatchKeydown ev st).1
  | .click t => clickPortal t st

/-- Run a sequence of operations. -/
def run (env : DomEnv) (ops : List Op) (st : St) : St :=
  match ops with
  | [] => st
  | o :: rest => run env rest (applyOp env o st)

/-- A host environment whose markup parsing yields no focusable elements;
used for concrete executions. -/
def envEmpty : DomEnv := ⟨fun _ => []⟩

/-- The portal ids the ghost creation log should hold, given the current
portal reference. -/
def portalCreated (st : St) : List ElemId :=
  match st.m.portal with
  | some p => [p]
  | none => []

/-- The portal invariant of a controller that has never been destroyed: the
creation log matches the live portal reference, every created portal is
attached at most once, and every attached node's id (and every created id)
is below the fresh-id counter. -/
def portalInv (st : St) : Prop :=
  st.createdPortals = portalCreated st ∧
  (∀ q ∈ st.createdPortals, st.dom.bodyChildren.count q ≤ 1) ∧
  (∀ i ∈ st.dom.bodyChildren, i < st.nextId) ∧
  (∀ q ∈ st.createdPortals, q < st.nextId)

instance (st : St) : Decidable (portalInv st) := by
  unfold portalInv
  infer_instance

/-- C1: for every open modal whose focusable-element list is non-empty, Tab on
the last focusable element wraps focus to the first and Shift+Tab on the first
wraps focus to the last (both intercepted, i.e. `preventDefault`); every other
Tab press is not intercepted and leaves the state unchanged, and with an empty
focusable-element list no Tab press is intercepted at all. -/
theorem C1_focus_trap (st : St) (ev : KeyEvent) (hk : ev.key = "Tab") :
    (st.m.focusableElements = [] → trapFocus ev st = (st, false)) ∧
    (st.m.focusableElements ≠ [] →
      (ev.shiftKey = false →
        (st.dom.activeElement = some (st.m.focusableElements.getLastD 0) →
          trapFocus ev st =
            ({ st with dom := { st.dom with
                activeElement := some (st.m.focusableElements.headD 0) } }, true)) ∧
        (st.dom.activeElement ≠ some (st.m.focusableElements.getLastD 0) →
          trapFocus ev st = (st, false))) ∧
      (ev.shiftKey = true →
        (st.dom.activeElement = some (st.m.focusableElements.headD 0) →
          trapFocus ev st =
            ({ st with dom := { st.dom with
                activeElement := some (st.m.focusableElements.getLastD 0) } }, true)) ∧
        (st.dom.activeElement ≠ some (st.m.focusableElements.headD 0) →
          trapFocus ev st = (st, false)))) := by
  refine ⟨fun h => ?_,
    fun h => ⟨fun hs => ⟨fun ha => ?_, fun ha => ?_⟩, fun hs => ⟨fun ha => ?_, fun ha => ?_⟩⟩⟩
  all_goals simp_all [trapFocus, hk, List.length_eq_zero,
    List.getLastD_eq_getLast?, List.headD_eq_head?]

/-- Witness for C1 at the spec's example: focusables `[1, 2, 3]` (A, B, C),
focus on the last, plain Tab: focus wraps to the first, intercepted. -/
theorem C1_focus_trap_witness :
    trapFocus ⟨"Tab", false⟩
        { m := { props := { isOpen := true }, focusableElements := [1, 2, 3] },
          dom := { activeElement := some 3 } } =
      ({ m := { props := { isOpen := true }, focusableElements := [1, 2, 3] },
         dom := { activeElement := some 1 } }, true) := by
  have h := C1_focus_trap
    { m := { props := { isOpen := true }, focusableElements := [1, 2, 3] },
      dom := { activeElement := some 3 } } ⟨"Tab", false⟩ rfl
  exact ((h.2 (by decide)).1 rfl).1 rfl

/-- C5: while the modal's listeners are as `show()` wires them, an Escape
keypress invokes `onClose` iff `closeOnEscape` is not explicitly false; a
click whose target is exactly the backdrop invokes `onClose` iff
`closeOnBackdropClick` is not explicitly false; a click targeting anything
other than the backdrop never invokes `onClose` through the backdrop
handler. -/
theorem C5_dismissal_triggers (st : St) (b : ElemId)
    (hesc : st.dom.escapeListener = notFalse st.m.props.closeOnEscape)
    (hbl : st.m.backdropListens = notFalse st.m.props.closeOnBackdropClick)
    (hb : st.m.backdrop = some b)
    (hcb : st.m.closeButton ≠ some b) :
    (∀ sh : Bool, ((dispatchKeydown ⟨"Escape", sh⟩ st).1).onCloseCalls =
      st.onCloseCalls + (if notFalse st.m.props.closeOnEscape then 1 else 0)) ∧
    ((clickPortal b st).onCloseCalls =
      st.onCloseCalls + (if notFalse st.m.props.closeOnBackdropClick then 1 else 0)) ∧
    (∀ t, st.m.backdrop ≠ some t → handleBackdropClick t st = st) ∧
    (∀ t, st.m.backdrop ≠ some t → st.m.closeButton ≠ some t →
      clickPortal t st = st) := by
  refine ⟨fun sh => ?_, ?_, fun t ht => ?_, fun t ht htc => ?_⟩
  · rcases he : notFalse st.m.props.closeOnEscape with _ | _ <;>
      rcases htl : st.dom.trapListener with _ | _ <;>
        simp [dispatchKeydown, handleEscapeKey, trapFocus, hesc, he, htl]
  · rcases hc : notFalse st.m.props.closeOnBackdropClick with _ | _ <;>
      simp [clickPortal, handleBackdropClick, hbl, hb, hc, hcb]
  · simp [handleBackdropClick, ht]
  · simp [clickPortal, handleBackdropClick, ht, htc]

/-- Witness for C5: default config (both flags unset, hence enabled), backdrop
id 1, close button id 5: Escape adds one `onClose` call. -/
theorem C5_dismissal_triggers_witness :
    ((dispatchKeydown ⟨"Escape", false⟩
        { m := { props := { isOpen := true }, backdrop := some 1, closeButton := some 5,
                 backdropListens := true },
          dom := { escapeListener := true, trapListener := true } }).1).onCloseCalls =
      0 + (if notFalse (none : Option Bool) then 1 else 0) := by
  exact (C5_dismissal_triggers
    { m := { props := { isOpen := true }, backdrop := some 1, closeButton := some 5,
             backdropListens := true },
      dom := { escapeListener := true, trapListener := true } } 1
    rfl rfl rfl (by decide)).1 false

/-- C8: with a body node present, `updateContent` installs exactly the new
content's focusable-selector matches and recomputes the focusable-element
list from them; the recomputed list does not depend on the pre-update
`focusableElements` or body matches (no stale list survives). -/
theorem C8_updateContent_recomputes (env : DomEnv) (ch : Children) (st : St)
    (hb : st.m.body ≠ none) :
    (updateContent env ch st).m.bodyMatched = childrenMatched env ch ∧
    (updateContent env ch st).m.focusableElements =
      getFocusableElements { st.m with bodyMatched := childrenMatched env ch } ∧
    (∀ fsOld bmOld,
      (updateContent env ch
        { st with m := { st.m with
            focusableElements := fsOld,
            bodyMatched := bmOld } }).m.focusableElements =
      (updateContent env ch st).m.focusableElements) := by
  refine ⟨?_, ?_, fun fsOld bmOld => ?_⟩ <;>
    simp [updateContent, hb, getFocusableElements]

/-- Witness for C8: body id 6, new content one enabled focusable element id
9: the recomputed list is close button 5 then 9. -/
theorem C8_updateContent_recomputes_witness :
    (updateContent envEmpty (Children.elem ⟨[⟨9, false⟩]⟩)
        { m := { props := { isOpen := true }, modalElem := some 2, body := some 6,
                 closeButton := some 5, focusableElements := [5],
                 bodyMatched := [] },
          dom := {} }).m.bodyMatched = [⟨9, false⟩] := by
  exact (C8_updateContent_recomputes envEmpty (Children.elem ⟨[⟨9, false⟩]⟩)
    { m := { props := { isOpen := true }, modalElem := some 2, body := some 6,
             closeButton := some 5, focusableElements := [5], bodyMatched := [] },
      dom := {} } (by decide)).1

/-- C10: an `updateProps` call with `isOpen` false before and false after the
merge only replaces the stored configuration; the instance's other fields,
the DOM, the task queues, and the counters are untouched. -/
theorem C10_updateProps_closed_frame (env : DomEnv) (np : PartialProps) (st : St)
    (h1 : st.m.props.isOpen = false)
    (h2 : (mergeProps st.m.props np).isOpen = false) :
    updateProps env np st =
      { st with m := { st.m with props := mergeProps st.m.props np } } := by
  simp [updateProps, h1, h2]

/-- Witness for C10: a closed modal receiving a title-only update keeps
everything but the stored props. -/
theorem C10_updateProps_closed_frame_witness :
    updateProps envEmpty { title := some (some "t") }
        { m := { props := { isOpen := false } }, dom := {} } =
      { m := { props := mergeProps ({ isOpen := false }) ({ title := some (some "t") }) },
        dom := {} } := by
  exact C10_updateProps_closed_frame envEmpty { title := some (some "t") }
    { m := { props := { isOpen := false } }, dom := {} } rfl rfl

/-- C2: `hide()` is a no-op without a portal; with one, it removes the open
class immediately while leaving the listeners, the document attachment, the
body scroll and the focus untouched, and schedules a single 200 ms task whose
run unregisters both listeners, detaches the portal, restores body scroll,
and restores focus to the element captured at `show()` time (which is exactly
the element that was focused when `show()` was called). -/
theorem C2_hide_deferred_cleanup (st : St) :
    (st.m.portal = none → hide st = st) ∧
    (∀ env st0, («show» env st0).m.previousFocusedElement = st0.dom.activeElement) ∧
    (∀ p, st.m.portal = some p →
      st.dom.bodyChildren.count p ≤ 1 → st.dom.openPortals.count p ≤ 1 →
      (p ∉ (hide st).dom.openPortals ∧
       (hide st).dom.escapeListener = st.dom.escapeListener ∧
       (hide st).dom.trapListener = st.dom.trapListener ∧
       (hide st).dom.bodyChildren = st.dom.bodyChildren ∧
       (hide st).dom.bodyOverflow = st.dom.bodyOverflow ∧
       (hide st).dom.activeElement = st.dom.activeElement ∧
       (hide st).pending = st.pending ++ [(200, TimerTask.hideCleanup)] ∧
       (hideCleanupRun (hide st)).dom.escapeListener = false ∧
       (hideCleanupRun (hide st)).dom.trapListener = false ∧
       p ∉ (hideCleanupRun (hide st)).dom.bodyChildren ∧
       (hideCleanupRun (hide st)).dom.bodyOverflow = "" ∧
       (∀ e, st.m.previousFocusedElement = some e →
         (hideCleanupRun (hide st)).dom.activeElement = some e))) := by
  refine ⟨fun h => by simp [hide, h], fun env st0 => ?_, fun p hp hcb hop => ?_⟩
  · by_cases hpo : st0.m.portal = none <;> simp [«show», hpo, createElement]
  · have hop0 : p ∉ st.dom.openPortals.erase p := by
      refine List.count_eq_zero.mp ?_
      have := List.count_erase_self p st.dom.openPortals
      omega
    have hbc0 : p ∉ (if p ∈ st.dom.bodyChildren then st.dom.bodyChildren.erase p
        else st.dom.bodyChildren) := by
      split
      · refine List.count_eq_zero.mp ?_
        have := List.count_erase_self p st.dom.bodyChildren
        omega
      · assumption
    refine ⟨?_, ?_, ?_, ?_, ?_, ?_, ?_, ?_, ?_, ?_, ?_, fun e he => ?_⟩ <;>
      simp_all [hide, classRemoveOpen, hideCleanupRun]

/-- Witness for C2 at a freshly shown modal (portal id 0): `hide` schedules
exactly one cleanup task. -/
theorem C2_hide_deferred_cleanup_witness :
    (hide («show» envEmpty (construct envEmpty { isOpen := false } {}))).pending =
      [] ++ [(200, TimerTask.hideCleanup)] :=
  ((C2_hide_deferred_cleanup («show» envEmpty (construct envEmpty { isOpen := false } {}))).2.2
    0 rfl (by decide) (by decide)).2.2.2.2.2.2.1

/-- C3: after `show()` returns, the portal is attached to the document body
and the focus-trap listener (and, when `closeOnEscape` is not false, the
Escape listener) is registered, while the open class is not yet applied: it
is added only by the animation-frame callback that `show()` queued. -/
theorem C3_show_sync_mount_async_class (env : DomEnv) (st : St)
    (hraf : st.rafQueue = []) :
    ∃ p, («show» env st).m.portal = some p ∧
      p ∈ («show» env st).dom.bodyChildren ∧
      («show» env st).dom.trapListener = true ∧
      (notFalse st.m.props.closeOnEscape = true →
        («show» env st).dom.escapeListener = true) ∧
      («show» env st).rafQueue = [RafTask.addOpenClass] ∧
      (p ∉ st.dom.openPortals → p ∉ («show» env st).dom.openPortals) ∧
      p ∈ (fireRaf («show» env st)).dom.openPortals := by
  by_cases hp : st.m.portal = none
  · refine ⟨st.nextId, ?_, ?_, ?_, fun h => ?_, ?_, fun h => ?_, ?_⟩
    · simp [«show», hp, createElement]
    · simp [«show», hp, createElement, appendChildBody]
    · simp [«show», hp, createElement]
    · simp [«show», hp, createElement, h]
    · simp [«show», hp, createElement, hraf]
    · simpa [«show», hp, createElement, appendChildBody] using h
    · simp only [«show», hp, createElement, hraf, fireRaf, runRaf, classAddOpen,
        appendChildBody]
      split <;> simp_all
      split <;> simp_all
  · obtain ⟨q, hq⟩ := Option.ne_none_iff_exists'.mp hp
    refine ⟨q, ?_, ?_, ?_, fun h => ?_, ?_, fun h => ?_, ?_⟩
    · simp [«show», hq]
    · simp [«show», hq, appendChildBody]
    · simp [«show», hq]
    · simp [«show», hq, h]
    · simp [«show», hq, hraf]
    · simpa [«show», hq, appendChildBody] using h
    · simp only [«show», hq, hraf, fireRaf, runRaf, classAddOpen, appendChildBody]
      split <;> simp_all
      split <;> simp_all

/-- Witness for C3: constructing closed then showing (raf queue empty)
mounts portal 0 synchronously and queues the open-class frame callback. -/
theorem C3_show_sync_mount_async_class_witness :
    («show» envEmpty (construct envEmpty { isOpen := false } {})).rafQueue =
      [RafTask.addOpenClass] := by
  obtain ⟨p, h⟩ := C3_show_sync_mount_async_class envEmpty
    (construct envEmpty { isOpen := false } {}) rfl
  exact h.2.2.2.2.1

/-- C4: `updateProps` merges and then diffs the previous `isOpen` against the
merged one: closed-to-open calls `show()`, open-to-closed calls `hide()`, and
open-to-open performs a full `hide()` plus a deferred (200 ms) `show()` task
(the re-render path; firing the deferred task runs `show()`). -/
theorem C4_updateProps_diff (env : DomEnv) (np : PartialProps) (st : St) :
    (st.m.props.isOpen = false → (mergeProps st.m.props np).isOpen = true →
      updateProps env np st =
        «show» env { st with m := { st.m with props := mergeProps st.m.props np } }) ∧
    (st.m.props.isOpen = true → (mergeProps st.m.props np).isOpen = false →
      updateProps env np st =
        hide { st with m := { st.m with props := mergeProps st.m.props np } }) ∧
    (st.m.props.isOpen = true → (mergeProps st.m.props np).isOpen = true →
      updateProps env np st =
        { hide { st with m := { st.m with props := mergeProps st.m.props np } } with
          pending :=
            (hide { st with m := { st.m with props := mergeProps st.m.props np } }).pending ++
              [(200, TimerTask.delayedShow)] }) ∧
    (∀ s, runTask env TimerTask.delayedShow s = «show» env s) := by
  refine ⟨fun h1 h2 => ?_, fun h1 h2 => ?_, fun h1 h2 => ?_, fun s => rfl⟩ <;>
    simp [updateProps, h1, h2]

/-- Witness for C4: `updateProps({isOpen:true})` on a closed modal equals
`show()` on the store-merged state. -/
theorem C4_updateProps_diff_witness :
    updateProps envEmpty { isOpen := some true }
        { m := { props := { isOpen := false } }, dom := {} } =
      «show» envEmpty
        { m := { props := mergeProps ({ isOpen := false }) ({ isOpen := some true }) },
          dom := {} } :=
  (C4_updateProps_diff envEmpty { isOpen := some true }
    { m := { props := { isOpen := false } }, dom := {} }).1 rfl rfl

/-- C6: `destroy()` is idempotent as a state transformer, releases every
element reference, performs the unconditional hide (open class removed, one
cleanup task scheduled) when a portal exists, and once the deferred cleanup
fires no Escape or focus-trap listener remains registered. -/
theorem C6_destroy_idempotent (st : St) :
    destroy (destroy st) = destroy st ∧
    (destroy st).m.portal = none ∧
    (destroy st).m.backdrop = none ∧
    (destroy st).m.modalElem = none ∧
    (destroy st).m.header = none ∧
    (destroy st).m.body = none ∧
    (destroy st).m.closeButton = none ∧
    (∀ p, st.m.portal = some p → st.dom.openPortals.count p ≤ 1 →
      (destroy st).pending = st.pending ++ [(200, TimerTask.hideCleanup)] ∧
      p ∉ (destroy st).dom.openPortals) ∧
    (∀ env, st.pending = [] → st.m.portal ≠ none →
      (fireTimer env (destroy (destroy st))).dom.escapeListener = false ∧
      (fireTimer env (destroy (destroy st))).dom.trapListener = false ∧
      (fireTimer env (destroy (destroy st))).pending = []) := by
  have hid : destroy (destroy st) = destroy st := rfl
  refine ⟨hid, rfl, rfl, rfl, rfl, rfl, rfl, fun p hp hop => ?_, fun env hpend hp => ?_⟩
  · have hop0 : p ∉ st.dom.openPortals.erase p := by
      refine List.count_eq_zero.mp ?_
      have := List.count_erase_self p st.dom.openPortals
      omega
    refine ⟨?_, ?_⟩ <;> simp [destroy, hide, hp, classRemoveOpen, hop0]
  · obtain ⟨q, hq⟩ := Option.ne_none_iff_exists'.mp hp
    rw [hid]
    refine ⟨?_, ?_, ?_⟩ <;>
      simp [destroy, hide, hq, hpend, fireTimer, runTask, hideCleanupRun]

/-- Witness for C6 at a freshly shown modal (portal 0, empty queues): the
forced hide schedules the cleanup task. -/
theorem C6_destroy_idempotent_witness :
    (destroy («show» envEmpty (construct envEmpty { isOpen := false } {}))).pending =
      [] ++ [(200, TimerTask.hideCleanup)] :=
  ((C6_destroy_idempotent («show» envEmpty (construct envEmpty { isOpen := false } {}))).2.2.2.2.2.2.2.1
    0 rfl (by decide)).1

/-- C9: constructing with `isOpen` false leaves the state untouched — no
portal subtree exists and the document is as given; constructing with
`isOpen` true is exactly an immediate `show()`, so the portal (id 0) is
attached to the document body when the constructor returns. -/
theorem C9_construct_isOpen (env : DomEnv) (props : ModalProps) (dom0 : Dom) :
    (props.isOpen = false →
      construct env props dom0 = { m := { props := props }, dom := dom0 } ∧
      (construct env props dom0).m.portal = none ∧
      (construct env props dom0).createdPortals = [] ∧
      (construct env props dom0).dom = dom0) ∧
    (props.isOpen = true →
      construct env props dom0 = «show» env { m := { props := props }, dom := dom0 } ∧
      (construct env props dom0).m.portal = some 0 ∧
      0 ∈ (construct env props dom0).dom.bodyChildren) := by
  refine ⟨fun h => ?_, fun h => ?_⟩ <;>
    simp [construct, h, «show», createElement, appendChildBody]

/-- Witness for C9: the two concrete constructions of the property. -/
theorem C9_construct_isOpen_witness :
    (construct envEmpty { isOpen := false } {}).m.portal = none ∧
    0 ∈ (construct envEmpty { isOpen := true } {}).dom.bodyChildren :=
  ⟨((C9_construct_isOpen envEmpty { isOpen := false } {}).1 rfl).2.1,
   ((C9_construct_isOpen envEmpty { isOpen := true } {}).2 rfl).2.2⟩

/-- The portal invariant only reads the portal reference, the creation log,
the body children and the id counter; any operation leaving those four alone
preserves it. -/
theorem portalInv_of_eq (st st' : St) (h : portalInv st)
    (hm : st'.m.portal = st.m.portal) (hc : st'.createdPortals = st.createdPortals)
    (hb : st'.dom.bodyChildren = st.dom.bodyChildren) (hn : st'.nextId = st.nextId) :
    portalInv st' := by
  obtain ⟨h1, h2, h3, h4⟩ := h
  refine ⟨?_, ?_, ?_, ?_⟩
  · simpa [portalCreated, hm, hc] using h1
  · intro q hq
    rw [hb]
    exact h2 q (hc ▸ hq)
  · intro i hi
    rw [hn]
    exact h3 i (hb ▸ hi)
  · intro q hq
    rw [hn]
    exact h4 q (hc ▸ hq)

/-- Function `show()` preserves the portal invariant: it either re-appends the one
existing portal (a move, not a duplication) or creates the first portal under
a fresh id and appends it once. -/
theorem portalInv_show (env : DomEnv) (st : St) (h : portalInv st) :
    portalInv («show» env st) := by
  obtain ⟨h1, h2, h3, h4⟩ := h
  by_cases hp : st.m.portal = none
  · have hcp : st.createdPortals = [] := by simpa [portalCreated, hp] using h1
    have hnot : st.nextId ∉ st.dom.bodyChildren := fun hm => absurd (h3 _ hm) (lt_irrefl _)
    have e1 : («show» env st).createdPortals = st.createdPortals ++ [st.nextId] := by
      simp [«show», hp, createElement]
    have e2 : («show» env st).m.portal = some st.nextId := by
      simp [«show», hp, createElement]
    have e3 : («show» env st).dom.bodyChildren =
        st.dom.bodyChildren.erase st.nextId ++ [st.nextId] := by
      simp [«show», hp, createElement, appendChildBody]
    have e4 : («show» env st).nextId = st.nextId + 7 := by
      simp [«show», hp, createElement]
    refine ⟨?_, ?_, ?_, ?_⟩
    · rw [e1, hcp]
      simp [portalCreated, e2]
    · intro q hq
      rw [e1, hcp] at hq
      simp at hq
      have h0 : st.dom.bodyChildren.count st.nextId = 0 := List.count_eq_zero.mpr hnot
      have h0e : (st.dom.bodyChildren.erase st.nextId).count st.nextId = 0 :=
        Nat.le_zero.mp (h0 ▸ List.Sublist.count_le (List.erase_sublist _ _) _)
      rw [e3, hq, List.count_append, h0e, List.count_singleton]
      simp
    · intro i hi
      rw [e3] at hi
      rw [e4]
      simp at hi
      rcases hi with hi | hi
      · exact Nat.lt_add_right 7 (h3 i (List.mem_of_mem_erase hi))
      · rw [hi]
        exact Nat.lt_add_of_pos_right (by decide)
    · intro q hq
      rw [e1, hcp] at hq
      rw [e4]
      simp at hq
      rw [hq]
      exact Nat.lt_add_of_pos_right (by decide)
  · obtain ⟨p, hpp⟩ := Option.ne_none_iff_exists'.mp hp
    have hcp : st.createdPortals = [p] := by simpa [portalCreated, hpp] using h1
    have e1 : («show» env st).createdPortals = st.createdPortals := by
      simp [«show», hpp]
    have e2 : («show» env st).m.portal = some p := by
      simp [«show», hpp]
    have e3 : («show» env st).dom.bodyChildren =
        st.dom.bodyChildren.erase p ++ [p] := by
      simp [«show», hpp, appendChildBody]
    have e4 : («show» env st).nextId = st.nextId := by
      simp [«show», hpp]
    refine ⟨?_, ?_, ?_, ?_⟩
    · rw [e1, hcp]
      simp [portalCreated, e2]
    · intro q hq
      rw [e1, hcp] at hq
      simp at hq
      have hle := h2 p (by simp [hcp])
      have h0e := List.Sublist.count_le (List.erase_sublist p st.dom.bodyChildren) p
      rw [e3, hq, List.count_append, List.count_erase_self, List.count_singleton]
      simp
      omega
    · intro i hi
      rw [e3] at hi
      rw [e4]
      simp at hi
      rcases hi with hi | hi
      · exact h3 i (List.mem_of_mem_erase hi)
      · rw [hi]
        exact h4 p (by simp [hcp])
    · intro q hq
      rw [e1] at hq
      rw [e4]
      exact h4 q hq

/-- Function `hide()` preserves the portal invariant (it only edits the open-class set
and the timer queue). -/
theorem portalInv_hide (st : St) (h : portalInv st) : portalInv (hide st) := by
  rcases hp : st.m.portal with _ | p
  · simpa [hide, hp] using h
  · exact portalInv_of_eq st _ h (by simp [hide, hp]) (by simp [hide, hp])
      (by simp [hide, hp, classRemoveOpen]) (by simp [hide, hp])

/-- The deferred `hide()` cleanup preserves the portal invariant: detaching
the portal only removes a body child. -/
theorem portalInv_hideCleanupRun (st : St) (h : portalInv st) :
    portalInv (hideCleanupRun st) := by
  obtain ⟨h1, h2, h3, h4⟩ := h
  have hsub : ((hideCleanupRun st).dom.bodyChildren).Sublist st.dom.bodyChildren := by
    simp only [hideCleanupRun]
    rcases st.m.portal with _ | p
    · exact List.Sublist.refl _
    · dsimp only
      split
      · exact List.erase_sublist _ _
      · exact List.Sublist.refl _
  refine ⟨?_, ?_, ?_, ?_⟩
  · simpa [portalCreated, hideCleanupRun] using h1
  · intro q hq
    exact le_trans (List.Sublist.count_le hsub q) (h2 q (by simpa [hideCleanupRun] using hq))
  · intro i hi
    have : i ∈ st.dom.bodyChildren := hsub.mem hi
    simpa [hideCleanupRun] using h3 i this
  · intro q hq
    simpa [hideCleanupRun] using h4 q (by simpa [hideCleanupRun] using hq)

/-- Handler `handleEscapeKey` at most increments the `onClose` counter. -/
theorem handleEscapeKey_shape (ev : KeyEvent) (st : St) :
    ∃ n, handleEscapeKey ev st = { st with onCloseCalls := n } := by
  unfold handleEscapeKey
  split
  · exact ⟨_, rfl⟩
  · exact ⟨_, rfl⟩

/-- Handler `trapFocus` at most moves the document focus. -/
theorem trapFocus_shape (ev : KeyEvent) (st : St) :
    ∃ a, (trapFocus ev st).1 = { st with dom := { st.dom with activeElement := a } } := by
  simp only [trapFocus]
  repeat' split
  all_goals exact ⟨_, rfl⟩

/-- A keydown dispatch only counts `onClose` calls and moves focus. -/
theorem dispatchKeydown_shape (ev : KeyEvent) (st : St) :
    ∃ n a, (dispatchKeydown ev st).1 =
      { st with onCloseCalls := n, dom := { st.dom with activeElement := a } } := by
  simp only [dispatchKeydown]
  obtain ⟨n, hn⟩ := handleEscapeKey_shape ev st
  by_cases h1 : st.dom.escapeListener = true
  · rw [if_pos h1, hn]
    obtain ⟨a, ha⟩ := trapFocus_shape ev { st with onCloseCalls := n }
    by_cases h2 : st.dom.trapListener = true
    · rw [if_pos (by exact h2), ha]
      exact ⟨n, a, rfl⟩
    · rw [if_neg (by exact h2)]
      exact ⟨n, st.dom.activeElement, rfl⟩
  · rw [if_neg h1]
    obtain ⟨a, ha⟩ := trapFocus_shape ev st
    by_cases h2 : st.dom.trapListener = true
    · rw [if_pos h2, ha]
      exact ⟨st.onCloseCalls, a, rfl⟩
    · rw [if_neg h2]
      exact ⟨st.onCloseCalls, st.dom.activeElement, rfl⟩

/-- Handler `handleBackdropClick` at most increments the `onClose` counter. -/
theorem handleBackdropClick_shape (t : ElemId) (st : St) :
    ∃ n, handleBackdropClick t st = { st with onCloseCalls := n } := by
  unfold handleBackdropClick
  split
  · exact ⟨_, rfl⟩
  · exact ⟨_, rfl⟩

/-- A portal click only counts `onClose` calls. -/
theorem clickPortal_shape (t : ElemId) (st : St) :
    ∃ n, clickPortal t st = { st with onCloseCalls := n } := by
  simp only [clickPortal]
  by_cases h1 : st.m.closeButton = some t
  · rw [if_pos h1]
    obtain ⟨n, hn⟩ := handleBackdropClick_shape t { st with onCloseCalls := st.onCloseCalls + 1 }
    by_cases h2 : st.m.backdropListens = true
    · rw [if_pos (by exact h2), hn]
      exact ⟨n, rfl⟩
    · rw [if_neg (by exact h2)]
      exact ⟨_, rfl⟩
  · rw [if_neg h1]
    obtain ⟨n, hn⟩ := handleBackdropClick_shape t st
    by_cases h2 : st.m.backdropListens = true
    · rw [if_pos h2, hn]
      exact ⟨n, rfl⟩
    · rw [if_neg h2]
      exact ⟨_, rfl⟩

/-- Method `updateProps` preserves the portal invariant on every branch. -/
theorem portalInv_updateProps (env : DomEnv) (np : PartialProps) (st : St)
    (h : portalInv st) : portalInv (updateProps env np st) := by
  have hP : portalInv { st with m := { st.m with props := mergeProps st.m.props np } } :=
    portalInv_of_eq st _ h rfl rfl rfl rfl
  unfold updateProps
  dsimp only
  split
  · exact portalInv_hide _ hP
  · split
    · exact portalInv_show env _ hP
    · split
      · exact portalInv_of_eq _ _ (portalInv_hide _ hP) rfl rfl rfl rfl
      · exact hP

/-- Every non-`destroy` operation preserves the portal invariant. -/
theorem portalInv_applyOp (env : DomEnv) (o : Op) (st : St) (ho : o ≠ Op.destroy)
    (h : portalInv st) : portalInv (applyOp env o st) := by
  cases o with
  | «show» => exact portalInv_show env st h
  | hide => exact portalInv_hide st h
  | updateProps p => exact portalInv_updateProps env p st h
  | updateContent c =>
    by_cases hb : st.m.body = none
    · simpa [applyOp, updateContent, hb] using h
    · exact portalInv_of_eq st _ h (by simp [applyOp, updateContent, hb])
        (by simp [applyOp, updateContent, hb]) (by simp [applyOp, updateContent, hb])
        (by simp [applyOp, updateContent, hb])
  | destroy => exact absurd rfl ho
  | fireTimer =>
    rcases hq : st.pending with _ | ⟨⟨d, t⟩, rest⟩
    · simpa [applyOp, fireTimer, hq] using h
    · have hrest : portalInv { st with pending := rest } :=
        portalInv_of_eq st _ h rfl rfl rfl rfl
      cases t with
      | hideCleanup =>
        simpa [applyOp, fireTimer, hq, runTask] using
          portalInv_hideCleanupRun { st with pending := rest } hrest
      | delayedShow =>
        simpa [applyOp, fireTimer, hq, runTask] using
          portalInv_show env { st with pending := rest } hrest
  | fireRaf =>
    rcases hq : st.rafQueue with _ | ⟨t, rest⟩
    · simpa [applyOp, fireRaf, hq] using h
    · rcases hpp : st.m.portal with _ | p
      · exact portalInv_of_eq st _ h (by simp [applyOp, fireRaf, hq, runRaf, hpp])
          (by simp [applyOp, fireRaf, hq, runRaf, hpp])
          (by simp [applyOp, fireRaf, hq, runRaf, hpp])
          (by simp [applyOp, fireRaf, hq, runRaf, hpp])
      · exact portalInv_of_eq st _ h (by simp [applyOp, fireRaf, hq, runRaf, hpp, classAddOpen])
          (by simp [applyOp, fireRaf, hq, runRaf, hpp, classAddOpen])
          (by simp [applyOp, fireRaf, hq, runRaf, hpp, classAddOpen])
          (by simp [applyOp, fireRaf, hq, runRaf, hpp, classAddOpen])
  | keydown ev =>
    obtain ⟨n, a, hshape⟩ := dispatchKeydown_shape ev st
    exact portalInv_of_eq st _ h (by simp [applyOp, hshape]) (by simp [applyOp, hshape])
      (by simp [applyOp, hshape]) (by simp [applyOp, hshape])
  | click t =>
    obtain ⟨n, hshape⟩ := clickPortal_shape t st
    exact portalInv_of_eq st _ h (by simp [applyOp, hshape]) (by simp [applyOp, hshape])
      (by simp [applyOp, hshape]) (by simp [applyOp, hshape])

/-- The portal invariant is preserved along any destroy-free run. -/
theorem portalInv_run (env : DomEnv) (ops : List Op) (st : St)
    (hops : ∀ o ∈ ops, o ≠ Op.destroy) (h : portalInv st) :
    portalInv (run env ops st) := by
  induction ops generalizing st with
  | nil => exact h
  | cons o rest ih =>
    exact ih (applyOp env o st) (fun x hx => hops x (List.mem_cons_of_mem o hx))
      (portalInv_applyOp env o st (hops o (List.mem_cons_self o rest)) h)

/-- Under the portal invariant, at most one created portal is attached. -/
theorem portalInv_attached_le_one (st : St) (h : portalInv st) :
    st.dom.bodyChildren.countP (fun i => st.createdPortals.contains i) ≤ 1 := by
  obtain ⟨h1, h2, h3, h4⟩ := h
  rcases hp : st.m.portal with _ | p
  · have hc : st.createdPortals = [] := by simpa [portalCreated, hp] using h1
    simp [hc]
  · have hc : st.createdPortals = [p] := by simpa [portalCreated, hp] using h1
    have hcount := h2 p (by simp [hc])
    calc st.dom.bodyChildren.countP (fun i => st.createdPortals.contains i)
        = st.dom.bodyChildren.countP (fun i => i == p) := by
          refine List.countP_congr ?_
          intro a _
          simp [hc, List.contains_cons]
      _ = st.dom.bodyChildren.count p := (List.count_eq_countP p st.dom.bodyChildren).symm
      _ ≤ 1 := hcount

/-- C7 counterexample: for the operation sequence `show(); destroy(); show()`
from a freshly constructed closed modal, two portal subtrees created by the
same controller are attached to the document body at once — `destroy()`
clears the portal reference, so the pending hide-cleanup cannot detach the
first portal, and the second `show()` creates and appends a new one. -/
theorem C7_portal_uniqueness_counterexample :
    ((run envEmpty [Op.show, Op.destroy, Op.show]
        (construct envEmpty { isOpen := false } {})).dom.bodyChildren.countP
      (fun i => (run envEmpty [Op.show, Op.destroy, Op.show]
        (construct envEmpty { isOpen := false } {})).createdPortals.contains i)) = 2 := by
  decide

/-- C7 (amended): along every destroy-free operation sequence from a state
satisfying the portal invariant (as a fresh construction does), at most one
portal subtree created by the controller is attached to the document body,
and a `show()` issued while the portal reference exists creates no new
portal node. -/
theorem C7_portal_uniqueness_amended (env : DomEnv) (ops : List Op) (st : St)
    (hops : ∀ o ∈ ops, o ≠ Op.destroy) (hinv : portalInv st) :
    portalInv (run env ops st) ∧
    ((run env ops st).dom.bodyChildren.countP
      (fun i => (run env ops st).createdPortals.contains i)) ≤ 1 ∧
    (∀ p, st.m.portal = some p →
      («show» env st).m.portal = some p ∧
      («show» env st).createdPortals = st.createdPortals) := by
  have hrun := portalInv_run env ops st hops hinv
  refine ⟨hrun, portalInv_attached_le_one _ hrun, fun p hp => ⟨?_, ?_⟩⟩ <;>
    simp [«show», hp]

/-- Witness for C7 (amended) on the sequence `show(); hide(); cleanup` from a
fresh construction. -/
theorem C7_portal_uniqueness_amended_witness :
    ((run envEmpty [Op.show, Op.hide, Op.fireTimer]
        (construct envEmpty { isOpen := false } {})).dom.bodyChildren.countP
      (fun i => (run envEmpty [Op.show, Op.hide, Op.fireTimer]
        (construct envEmpty { isOpen := false } {})).createdPortals.contains i)) ≤ 1 :=
  (C7_portal_uniqueness_amended envEmpty [Op.show, Op.hide, Op.fireTimer]
    (construct envEmpty { isOpen := false } {}) (by decide) (by decide)).2.1

end ModalSpec
